import Mathlib

/-!
Shallow embedding of the S3 file-transfer façade:
`polls/s3_utils.py` (Storage Adapter) and `polls/s3_views.py` (HTTP Endpoint
Layer).  The object store held by the provider is modelled as a flat
association list from keys to stored objects; the provider calls made by
`boto3` (`upload_fileobj`, `get_object`, `delete_object`, `list_objects_v2`)
are modelled from the provider contract the code relies on.  Environment
inputs the Python code obtains implicitly — the Django settings
(`AWS_STORAGE_BUCKET_NAME`, `AWS_S3_REGION_NAME`), the random token drawn by
`uuid.uuid4().hex`, and the object timestamp — are passed as explicit
arguments.
-/

set_option autoImplicit false
set_option linter.unusedVariables false

namespace S3App

/-- Raw byte content of a file, one entry per byte. -/
abbrev Bytes := List Nat

/-- A stored object: raw content, the content-type attached at upload time
(`none` when no `ContentType` was attached), and a last-modified timestamp. -/
structure S3Object where
  content : Bytes
  contentType : Option String
  lastModified : String
deriving Repr, DecidableEq

/-- The flat key space of the bucket, first-match association list. -/
abbrev S3Store := List (String × S3Object)

/-- The Django settings the adapter reads: `AWS_STORAGE_BUCKET_NAME` and
`AWS_S3_REGION_NAME`.  An unset bucket name is modelled as the empty string,
matching the falsiness test `if not settings.AWS_STORAGE_BUCKET_NAME`. -/
structure Env where
  bucket : String
  region : String
deriving Repr, DecidableEq

/-- A provider-visible call issued by the adapter, used to state that an
operation contacted (or did not contact) the storage provider. -/
inductive S3Call where
  | put (key : String)
  | get (key : String)
  | del (key : String)
  | list (pfx : String) (maxKeys : Int)
deriving Repr, DecidableEq

/-- Provider lookup: first entry with the given key. -/
def storeGet : S3Store → String → Option S3Object
  | [], _ => none
  | (k, o) :: rest, key => if k = key then some o else storeGet rest key

/-- Provider delete: removes every entry with the given key; succeeds also
when the key is absent (`delete_object` idempotent semantics). -/
def storeDelete (st : S3Store) (key : String) : S3Store :=
  st.filter (fun e => e.1 != key)

/-- Provider put: `upload_fileobj` overwrites whatever was stored under the
key. -/
def storePut (st : S3Store) (key : String) (obj : S3Object) : S3Store :=
  (key, obj) :: storeDelete st key

/-- Provider listing (`list_objects_v2`): the entries whose key starts with
the given prefix, truncated to `MaxKeys`.  Out-of-range `MaxKeys` values are
clamped at zero. -/
def listObjectsV2 (st : S3Store) (pfx : String) (maxKeys : Int) :
    List (String × S3Object) :=
  (st.filter (fun e => e.1.startsWith pfx)).take maxKeys.toNat

/-- Outcome of `upload_file_to_s3`: the success dict carries `file_key`,
`url` and `original_filename`; the failure dict carries `error`. -/
inductive UploadResult where
  | ok (file_key url original_filename : String)
  | err (error : String)
deriving Repr, DecidableEq

/-- Outcome of `download_file_from_s3`. -/
inductive DownloadResult where
  | ok (file_content : Bytes) (content_type : String) (file_key : String)
  | err (error : String)
deriving Repr, DecidableEq

/-- Outcome of `delete_file_from_s3`. -/
inductive DeleteResult where
  | ok (file_key : String)
  | err (error : String)
deriving Repr, DecidableEq

/-- One element of the `files` list built by `list_files_in_s3`. -/
structure FileSummary where
  key : String
  size : Nat
  last_modified : String
deriving Repr, DecidableEq

/-- Outcome of `list_files_in_s3`. -/
inductive ListResult where
  | ok (files : List FileSummary) (count : Nat)
  | err (error : String)
deriving Repr, DecidableEq

/-- `upload_file_to_s3` (s3_utils.py lines 35-91).  `uuidHex` is the value of
`uuid.uuid4().hex` drawn for this call and `now` the timestamp the provider
records.  Returns the result dict, the store after the call, and the
provider calls made. -/
def upload_file_to_s3 (env : Env) (uuidHex now : String) (st : S3Store)
    (file_obj : Bytes) (filename : String) (content_type : Option String) :
    UploadResult × S3Store × List S3Call :=
  if env.bucket = "" then
    (.err "S3 bucket name not configured", st, [])
  else
    let unique_filename := uuidHex ++ "_" ++ filename
    let attachedCT : Option String :=
      match content_type with
      | some ct => if ct = "" then none else some ct
      | none => none
    let file_url :=
      "https://" ++ env.bucket ++ ".s3." ++ env.region ++ ".amazonaws.com/"
        ++ unique_filename
    (.ok unique_filename file_url filename,
     storePut st unique_filename ⟨file_obj, attachedCT, now⟩,
     [.put unique_filename])

/-- `download_file_from_s3` (s3_utils.py lines 94-138).  A missing key is the
`NoSuchKey` ClientError branch; an absent stored content-type defaults to
`application/octet-stream` via `response.get`. -/
def download_file_from_s3 (env : Env) (st : S3Store) (file_key : String) :
    DownloadResult × List S3Call :=
  if env.bucket = "" then
    (.err "S3 bucket name not configured", [])
  else
    match storeGet st file_key with
    | some obj =>
        (.ok obj.content (obj.contentType.getD "application/octet-stream")
          file_key, [.get file_key])
    | none => (.err ("File not found: " ++ file_key), [.get file_key])

/-- `delete_file_from_s3` (s3_utils.py lines 141-170): `delete_object`
succeeds whether or not the key exists. -/
def delete_file_from_s3 (env : Env) (st : S3Store) (file_key : String) :
    DeleteResult × S3Store × List S3Call :=
  if env.bucket = "" then
    (.err "S3 bucket name not configured", st, [])
  else
    (.ok file_key, storeDelete st file_key, [.del file_key])

/-- `list_files_in_s3` (s3_utils.py lines 173-207). -/
def list_files_in_s3 (env : Env) (st : S3Store) (pfx : String)
    (max_keys : Int) : ListResult × List S3Call :=
  if env.bucket = "" then
    (.err "S3 bucket name not configured", [])
  else
    let files := (listObjectsV2 st pfx max_keys).map
      (fun e => FileSummary.mk e.1 e.2.content.length e.2.lastModified)
    (.ok files files.length, [.list pfx max_keys])

/-- Minimal JSON values, enough for the response bodies the views build. -/
inductive Json where
  | str (s : String)
  | num (n : Int)
  | bool (b : Bool)
  | arr (xs : List Json)
  | obj (fields : List (String × Json))

/-- An HTTP response as the views build it: a `JsonResponse`, or the raw-byte
`HttpResponse` of a successful download with its `Content-Type` and
`Content-Disposition` header. -/
inductive ViewResponse where
  | json (status : Nat) (body : Json)
  | file (status : Nat) (content : Bytes) (content_type : String)
      (content_disposition : String)

/-- HTTP status code of a response. -/
def ViewResponse.status : ViewResponse → Nat
  | .json s _ => s
  | .file s _ _ _ => s

/-- Outcome of running a Python view: a returned value, or an uncaught
exception (which Django surfaces as a 500 server error). -/
inductive PyOutcome (α : Type) where
  | ok (val : α)
  | raised (exc : String)

/-- A multipart upload as Django hands it to the view: `name`, file content,
and the `content_type` attribute of the uploaded file. -/
structure UploadedFile where
  name : String
  content : Bytes
  content_type : Option String
deriving Repr, DecidableEq

/-- `upload_file` view (s3_views.py lines 18-60).  `reqFile` is
`request.FILES['file']` when present. -/
def upload_file (env : Env) (uuidHex now : String) (st : S3Store)
    (reqFile : Option UploadedFile) : ViewResponse × S3Store × List S3Call :=
  match reqFile with
  | none =>
      (.json 400 (.obj [("success", .bool false),
        ("error", .str "No file provided. Please include a file in the request.")]),
       st, [])
  | some f =>
      let res := upload_file_to_s3 env uuidHex now st f.content f.name
        f.content_type
      match res.1 with
      | .ok k u orig =>
          (.json 201 (.obj [("success", .bool true),
            ("message", .str "File uploaded successfully"),
            ("file_key", .str k), ("url", .str u),
            ("original_filename", .str orig)]), res.2.1, res.2.2)
      | .err e =>
          (.json 500 (.obj [("success", .bool false), ("error", .str e)]),
           res.2.1, res.2.2)

/-- Splits a character list at the first underscore:
`some (before, after)` when an underscore occurs, `none` otherwise.  Models
`file_key.split('_', 1)` together with the `'_' in file_key` test. -/
def splitFirstUnderscore : List Char → Option (List Char × List Char)
  | [] => none
  | c :: cs =>
      if c = '_' then some ([], cs)
      else
        match splitFirstUnderscore cs with
        | some (p, r) => some (c :: p, r)
        | none => none

/-- The download filename:
`file_key.split('_', 1)[1] if '_' in file_key else file_key`
(s3_views.py line 85). -/
def stripTokenPfx (file_key : String) : String :=
  match splitFirstUnderscore file_key.data with
  | some (_, rest) => String.mk rest
  | none => file_key

/-- `download_file` view (s3_views.py lines 64-92). -/
def download_file (env : Env) (st : S3Store) (file_key : String) :
    ViewResponse × List S3Call :=
  let res := download_file_from_s3 env st file_key
  match res.1 with
  | .ok content ct _ =>
      (.file 200 content ct
        ("attachment; filename=\"" ++ stripTokenPfx file_key ++ "\""),
       res.2)
  | .err e =>
      (.json 404 (.obj [("success", .bool false), ("error", .str e)]), res.2)

/-- `delete_file` view (s3_views.py lines 97-122). -/
def delete_file (env : Env) (st : S3Store) (file_key : String) :
    ViewResponse × S3Store × List S3Call :=
  let res := delete_file_from_s3 env st file_key
  match res.1 with
  | .ok k =>
      (.json 200 (.obj [("success", .bool true),
        ("message", .str "File deleted successfully"),
        ("file_key", .str k)]), res.2.1, res.2.2)
  | .err e =>
      (.json 500 (.obj [("success", .bool false), ("error", .str e)]),
       res.2.1, res.2.2)

/-- `True` when the tail of a Python integer literal body is well formed:
digits with single underscores strictly between digits. -/
def pyDigitsRest : List Char → Bool
  | [] => true
  | c :: cs =>
      if c = '_' then
        match cs with
        | [] => false
        | d :: rest => d.isDigit && pyDigitsRest rest
      else
        c.isDigit && pyDigitsRest cs

/-- A well-formed unsigned Python integer literal body: nonempty, starting
with a digit. -/
def pyIntBody : List Char → Bool
  | [] => false
  | c :: cs => c.isDigit && pyDigitsRest cs

/-- Numeric value of a digit string, skipping grouping underscores. -/
def pyDigitsVal (cs : List Char) : Nat :=
  cs.foldl (fun acc c => if c = '_' then acc else acc * 10 + (c.toNat - 48)) 0

/-- Whitespace stripping from both ends, as `int(str)` performs before
parsing. -/
def pyStrip (cs : List Char) : List Char :=
  ((cs.dropWhile Char.isWhitespace).reverse.dropWhile Char.isWhitespace).reverse

/-- The builtin `int(str)`: surrounding whitespace stripped, optional sign,
then digits (with underscore grouping).  `none` models the `ValueError` the
builtin raises on malformed input. -/
def pyParseInt (s : String) : Option Int :=
  match pyStrip s.data with
  | '+' :: rest => if pyIntBody rest then some (pyDigitsVal rest : Int) else none
  | '-' :: rest => if pyIntBody rest then some (-(pyDigitsVal rest : Int)) else none
  | rest => if pyIntBody rest then some (pyDigitsVal rest : Int) else none

/-- JSON rendering of one file summary in the list view. -/
def summaryJson (f : FileSummary) : Json :=
  .obj [("key", .str f.key), ("size", .num f.size),
    ("last_modified", .str f.last_modified)]

/-- `list_files` view (s3_views.py lines 126-156).  `pfxParam` and
`maxKeysParam` are the raw query parameters; `int(...)` on a malformed
`max_keys` raises an uncaught `ValueError`. -/
def list_files (env : Env) (st : S3Store)
    (pfxParam maxKeysParam : Option String) :
    PyOutcome (ViewResponse × List S3Call) :=
  let pfx := pfxParam.getD ""
  let parsed : Option Int :=
    match maxKeysParam with
    | none => some 100
    | some s => pyParseInt s
  match parsed with
  | none => .raised "ValueError"
  | some mk =>
      let res := list_files_in_s3 env st pfx mk
      match res.1 with
      | .ok files count =>
          .ok (.json 200 (.obj [("success", .bool true),
            ("files", .arr (files.map summaryJson)),
            ("count", .num count)]), res.2)
      | .err e =>
          .ok (.json 500 (.obj [("success", .bool false),
            ("error", .str e)]), res.2)

/-- Lowercase hexadecimal digit, the alphabet of `uuid.uuid4().hex`. -/
def isLowerHexDigit (c : Char) : Bool :=
  c.isDigit || ('a' ≤ c && c ≤ 'f')

/-- The shape `uuid.uuid4().hex` guarantees: exactly 32 lowercase hex
characters. -/
def isHex32 (t : String) : Bool :=
  (t.length == 32) && t.data.all isLowerHexDigit

/-! ## Helper lemmas -/

theorem storeGet_storePut_self (st : S3Store) (k : String) (obj : S3Object) :
    storeGet (storePut st k obj) k = some obj := by
  simp [storePut, storeGet]

theorem splitFirstUnderscore_eq_none {cs : List Char} :
    splitFirstUnderscore cs = none ↔ '_' ∉ cs := by
  induction cs with
  | nil => simp [splitFirstUnderscore]
  | cons c cs ih =>
      by_cases hc : c = '_'
      · subst hc; simp [splitFirstUnderscore]
      · simp only [splitFirstUnderscore, if_neg hc]
        cases hs : splitFirstUnderscore cs with
        | some pr => simp [hs, List.mem_cons, hc, ← ih]
        | none =>
            rw [hs] at ih
            simp only [true_iff] at ih
            simp [List.mem_cons, hc, ih]
            exact fun h => hc h.symm

theorem splitFirstUnderscore_eq_some {cs p r : List Char}
    (h : splitFirstUnderscore cs = some (p, r)) :
    '_' ∉ p ∧ cs = p ++ '_' :: r := by
  induction cs generalizing p r with
  | nil => simp [splitFirstUnderscore] at h
  | cons c cs ih =>
      by_cases hc : c = '_'
      · subst hc
        rw [splitFirstUnderscore, if_pos rfl] at h
        have h1 := Option.some.inj h
        have hp : ([] : List Char) = p := congrArg Prod.fst h1
        have hr : cs = r := congrArg Prod.snd h1
        subst hp; subst hr
        simp
      · rw [splitFirstUnderscore, if_neg hc] at h
        cases hs : splitFirstUnderscore cs with
        | none => rw [hs] at h; exact absurd h (by simp)
        | some pr =>
            obtain ⟨p0, r0⟩ := pr
            rw [hs] at h
            have h1 := Option.some.inj h
            have hp : c :: p0 = p := congrArg Prod.fst h1
            have hr : r0 = r := congrArg Prod.snd h1
            subst hp; subst hr
            obtain ⟨hnp, hcs⟩ := ih hs
            constructor
            · intro hmem
              rcases List.mem_cons.mp hmem with h2 | h2
              · exact hc h2.symm
              · exact hnp h2
            · rw [hcs]; simp

/-- A configured environment used to instantiate theorems on concrete
inputs. -/
def envA : Env := ⟨"mybucket", "us-east-1"⟩

/-! ## Claims -/

/-- C1: uploading content `c` with filename `F` and a content-type via Put
and then downloading with the returned `file_key` via Get returns exactly
the bytes `c` with the content-type that was attached at upload. -/
theorem uploadThenDownloadRoundtrip (env : Env) (tok now : String)
    (st : S3Store) (c : Bytes) (F ct : String)
    (hb : env.bucket ≠ "") (hct : ct ≠ "") :
    ∃ k u st2 calls,
      upload_file_to_s3 env tok now st c F (some ct) =
        (.ok k u F, st2, calls) ∧
      (download_file_from_s3 env st2 k).1 = .ok c ct k := by
  refine ⟨tok ++ "_" ++ F,
    "https://" ++ env.bucket ++ ".s3." ++ env.region ++ ".amazonaws.com/"
      ++ (tok ++ "_" ++ F),
    storePut st (tok ++ "_" ++ F) ⟨c, some ct, now⟩,
    [.put (tok ++ "_" ++ F)], ?_, ?_⟩
  · simp [upload_file_to_s3, hb, hct]
  · simp [download_file_from_s3, hb, storeGet_storePut_self]

theorem uploadThenDownloadRoundtrip_w :
    envA.bucket ≠ "" ∧ "text/plain" ≠ "" ∧
    (∃ k u st2 calls,
      upload_file_to_s3 envA "t" "d0" [] [104, 105] "hello.txt"
        (some "text/plain") = (.ok k u "hello.txt", st2, calls) ∧
      (download_file_from_s3 envA st2 k).1 = .ok [104, 105] "text/plain" k) :=
  ⟨by decide, by decide,
    uploadThenDownloadRoundtrip envA "t" "d0" [] [104, 105] "hello.txt"
      "text/plain" (by decide) (by decide)⟩

/-- C6: an Upload request whose multipart body has no `file` field gets a
400 response with a descriptive message, the store is unchanged, and no
provider call is made. -/
theorem uploadMissingFileField (env : Env) (uuidHex now : String)
    (st : S3Store) :
    upload_file env uuidHex now st none =
      (.json 400 (.obj [("success", .bool false),
        ("error", .str "No file provided. Please include a file in the request.")]),
       st, []) := rfl

/-- C10: with the bucket name unset (empty), each of the four adapter
operations returns the failure result with error message
`S3 bucket name not configured`, makes no provider call, and leaves the
store unchanged. -/
theorem bucketUnconfiguredAllOpsFail (env : Env) (tok now : String)
    (st : S3Store) (c : Bytes) (F K P : String) (ct : Option String)
    (N : Int) (hb : env.bucket = "") :
    upload_file_to_s3 env tok now st c F ct =
      (.err "S3 bucket name not configured", st, []) ∧
    download_file_from_s3 env st K =
      (.err "S3 bucket name not configured", []) ∧
    delete_file_from_s3 env st K =
      (.err "S3 bucket name not configured", st, []) ∧
    list_files_in_s3 env st P N =
      (.err "S3 bucket name not configured", []) := by
  refine ⟨?_, ?_, ?_, ?_⟩ <;>
    simp [upload_file_to_s3, download_file_from_s3, delete_file_from_s3,
      list_files_in_s3, hb]

theorem bucketUnconfiguredAllOpsFail_w :
    (⟨"", "us-east-1"⟩ : Env).bucket = "" ∧
    (upload_file_to_s3 ⟨"", "us-east-1"⟩ "tok" "d0" [] [104] "a.txt" none =
      (.err "S3 bucket name not configured", [], []) ∧
    download_file_from_s3 ⟨"", "us-east-1"⟩ [] "k" =
      (.err "S3 bucket name not configured", []) ∧
    delete_file_from_s3 ⟨"", "us-east-1"⟩ [] "k" =
      (.err "S3 bucket name not configured", [], []) ∧
    list_files_in_s3 ⟨"", "us-east-1"⟩ [] "p" 5 =
      (.err "S3 bucket name not configured", [])) :=
  ⟨rfl, bucketUnconfiguredAllOpsFail ⟨"", "us-east-1"⟩ "tok" "d0" [] [104]
    "a.txt" "k" "p" none 5 rfl⟩

/-- C2: a successful upload of filename `F` returns the key `<token>_F`
built from the `uuid.uuid4().hex` draw, the URL
`https://<bucket>.s3.<region>.amazonaws.com/<file_key>`, and
`original_filename = F`; two uploads of the same filename with distinct
token draws yield distinct keys.  The uuid library guarantee — each draw is
a fresh 32-lowercase-hex string — enters as the hypotheses on the tokens. -/
theorem uploadKeyUrlFormat (env : Env) (t1 t2 now1 now2 : String)
    (st1 st2 : S3Store) (c1 c2 : Bytes) (F : String)
    (ct1 ct2 : Option String) (hb : env.bucket ≠ "")
    (hx1 : isHex32 t1 = true) (hx2 : isHex32 t2 = true) (hne : t1 ≠ t2) :
    (upload_file_to_s3 env t1 now1 st1 c1 F ct1).1 =
      .ok (t1 ++ "_" ++ F)
        ("https://" ++ env.bucket ++ ".s3." ++ env.region
          ++ ".amazonaws.com/" ++ (t1 ++ "_" ++ F)) F ∧
    (upload_file_to_s3 env t2 now2 st2 c2 F ct2).1 =
      .ok (t2 ++ "_" ++ F)
        ("https://" ++ env.bucket ++ ".s3." ++ env.region
          ++ ".amazonaws.com/" ++ (t2 ++ "_" ++ F)) F ∧
    t1 ++ "_" ++ F ≠ t2 ++ "_" ++ F := by
  refine ⟨by simp [upload_file_to_s3, hb], by simp [upload_file_to_s3, hb], ?_⟩
  intro h
  apply hne
  apply String.ext
  have h2 := congrArg String.data h
  simp only [String.data_append] at h2
  exact List.append_cancel_right (List.append_cancel_right h2)

theorem uploadKeyUrlFormat_w :
    envA.bucket ≠ "" ∧
    isHex32 "0123456789abcdef0123456789abcdef" = true ∧
    isHex32 "aaaaaaaaaaaaaaaaaaaaaaaaaaaaaaaa" = true ∧
    "0123456789abcdef0123456789abcdef" ≠ "aaaaaaaaaaaaaaaaaaaaaaaaaaaaaaaa" ∧
    ((upload_file_to_s3 envA "0123456789abcdef0123456789abcdef" "d1" [] [1]
        "hello.txt" none).1 =
      .ok ("0123456789abcdef0123456789abcdef" ++ "_" ++ "hello.txt")
        ("https://" ++ envA.bucket ++ ".s3." ++ envA.region
          ++ ".amazonaws.com/"
          ++ ("0123456789abcdef0123456789abcdef" ++ "_" ++ "hello.txt"))
        "hello.txt" ∧
    (upload_file_to_s3 envA "aaaaaaaaaaaaaaaaaaaaaaaaaaaaaaaa" "d2" [] [2]
        "hello.txt" none).1 =
      .ok ("aaaaaaaaaaaaaaaaaaaaaaaaaaaaaaaa" ++ "_" ++ "hello.txt")
        ("https://" ++ envA.bucket ++ ".s3." ++ envA.region
          ++ ".amazonaws.com/"
          ++ ("aaaaaaaaaaaaaaaaaaaaaaaaaaaaaaaa" ++ "_" ++ "hello.txt"))
        "hello.txt" ∧
    "0123456789abcdef0123456789abcdef" ++ "_" ++ "hello.txt" ≠
      "aaaaaaaaaaaaaaaaaaaaaaaaaaaaaaaa" ++ "_" ++ "hello.txt") :=
  ⟨by decide, by decide, by decide, by decide,
    uploadKeyUrlFormat envA "0123456789abcdef0123456789abcdef"
      "aaaaaaaaaaaaaaaaaaaaaaaaaaaaaaaa" "d1" "d2" [] [] [1] [2] "hello.txt"
      none none (by decide) (by decide) (by decide) (by decide)⟩

/-- A stored object and single-entry store used to instantiate the download
theorems. -/
def objW : S3Object := ⟨[1, 2], some "text/plain", "d1"⟩

def stW : S3Store := [("ab_cd.txt", objW)]

/-- C5: on a successful Download of key `K`, the `Content-Disposition`
attachment filename is `K` with the prefix up to and including the first
underscore removed when `K` contains one, and `K` itself otherwise. -/
theorem downloadDispositionFilename (env : Env) (st : S3Store) (K : String)
    (obj : S3Object) (hb : env.bucket ≠ "") (hk : storeGet st K = some obj) :
    (download_file env st K).1 =
      .file 200 obj.content (obj.contentType.getD "application/octet-stream")
        ("attachment; filename=\"" ++ stripTokenPfx K ++ "\"") ∧
    (('_' ∈ K.data) →
      ∃ p, '_' ∉ p ∧ K.data = p ++ '_' :: (stripTokenPfx K).data) ∧
    ('_' ∉ K.data → stripTokenPfx K = K) := by
  refine ⟨?_, ?_, ?_⟩
  · simp [download_file, download_file_from_s3, hb, hk]
  · intro hmem
    cases hsp : splitFirstUnderscore K.data with
    | none => exact absurd hmem (splitFirstUnderscore_eq_none.mp hsp)
    | some pr =>
        obtain ⟨p, r⟩ := pr
        obtain ⟨hnp, hcs⟩ := splitFirstUnderscore_eq_some hsp
        refine ⟨p, hnp, ?_⟩
        simp only [stripTokenPfx, hsp]
        exact hcs
  · intro hno
    have hsp := splitFirstUnderscore_eq_none.mpr hno
    simp [stripTokenPfx, hsp]

theorem downloadDispositionFilename_w :
    envA.bucket ≠ "" ∧ storeGet stW "ab_cd.txt" = some objW ∧
    ((download_file envA stW "ab_cd.txt").1 =
      .file 200 objW.content
        (objW.contentType.getD "application/octet-stream")
        ("attachment; filename=\"" ++ stripTokenPfx "ab_cd.txt" ++ "\"") ∧
    (('_' ∈ "ab_cd.txt".data) →
      ∃ p, '_' ∉ p ∧
        "ab_cd.txt".data = p ++ '_' :: (stripTokenPfx "ab_cd.txt").data) ∧
    ('_' ∉ "ab_cd.txt".data → stripTokenPfx "ab_cd.txt" = "ab_cd.txt")) :=
  ⟨by decide, by decide,
    downloadDispositionFilename envA stW "ab_cd.txt" objW (by decide)
      (by decide)⟩

/-- A stored object with no provider-reported content-type. -/
def objNoCT : S3Object := ⟨[7], none, "d2"⟩

def stNoCT : S3Store := [("k1", objNoCT)]

/-- C9: Get of an existing key returns the stored content-type when the
provider reports one and `application/octet-stream` when it reports none. -/
theorem downloadContentTypeDefault (env : Env) (st : S3Store) (K : String)
    (obj : S3Object) (hb : env.bucket ≠ "") (hk : storeGet st K = some obj) :
    (download_file_from_s3 env st K).1 =
      .ok obj.content
        (match obj.contentType with
         | none => "application/octet-stream"
         | some ct => ct) K := by
  cases hct : obj.contentType <;>
    simp [download_file_from_s3, hb, hk, hct]

theorem downloadContentTypeDefault_w :
    envA.bucket ≠ "" ∧ storeGet stNoCT "k1" = some objNoCT ∧
    (download_file_from_s3 envA stNoCT "k1").1 =
      .ok objNoCT.content
        (match objNoCT.contentType with
         | none => "application/octet-stream"
         | some ct => ct) "k1" :=
  ⟨by decide, by decide,
    downloadContentTypeDefault envA stNoCT "k1" objNoCT (by decide)
      (by decide)⟩

/-- C3 counterexample: a List request with the non-integer `max_keys`
value `abc` does not get a 4xx response — `int(...)` raises an uncaught
`ValueError`, which the framework surfaces as a 500 server error. -/
theorem listMalformedMaxKeys_cex :
    list_files envA [] none (some "abc") = .raised "ValueError" := rfl

/-- C3 amended: a List request whose `max_keys` parameter is present but not
a well-formed integer raises an uncaught `ValueError` (surfaced by the
framework as a 500 server error); no 4xx response is produced. -/
theorem listMalformedMaxKeysRaises (env : Env) (st : S3Store)
    (p : Option String) (s : String) (hmal : pyParseInt s = none) :
    list_files env st p (some s) = .raised "ValueError" := by
  simp [list_files, hmal]

theorem listMalformedMaxKeysRaises_w :
    pyParseInt "12cats" = none ∧
    list_files envA stW none (some "12cats") = .raised "ValueError" :=
  ⟨by decide, listMalformedMaxKeysRaises envA stW none "12cats" (by decide)⟩

/-- C4 counterexample: with the bucket unconfigured — a Download failure
that is not the not-found condition — the endpoint returns status 404, a
4xx, not the 5xx the claim requires. -/
theorem downloadNonNotFound404_cex :
    (download_file ⟨"", "us-east-1"⟩ [] "somekey").1 =
      .json 404 (.obj [("success", .bool false),
        ("error", .str "S3 bucket name not configured")]) ∧
    ¬ (500 ≤ ((download_file ⟨"", "us-east-1"⟩ [] "somekey").1).status) :=
  ⟨rfl, by decide⟩

/-- C4 amended: every Download failure — not-found or otherwise — is
surfaced as a 404 response embedding the adapter's error message; no
Download failure produces a 5xx. -/
theorem downloadFailureAlways404 (env : Env) (st : S3Store) (K e : String)
    (hf : (download_file_from_s3 env st K).1 = .err e) :
    (download_file env st K).1 =
      .json 404 (.obj [("success", .bool false), ("error", .str e)]) := by
  simp [download_file, hf]

theorem downloadFailureAlways404_w :
    (download_file_from_s3 ⟨"", "eu-west-1"⟩ [] "kk").1 =
      .err "S3 bucket name not configured" ∧
    (download_file ⟨"", "eu-west-1"⟩ [] "kk").1 =
      .json 404 (.obj [("success", .bool false),
        ("error", .str "S3 bucket name not configured")]) :=
  ⟨by decide, downloadFailureAlways404 ⟨"", "eu-west-1"⟩ [] "kk"
    "S3 bucket name not configured" (by decide)⟩

/-- C7: a successful List with prefix `P` and bound `N` returns at most `N`
summaries, each of whose key starts with `P`, and when no stored key starts
with `P` it returns success with an empty list and count 0. -/
theorem listPrefixBound (env : Env) (st : S3Store) (P : String) (N : Nat)
    (hb : env.bucket ≠ "") :
    ∃ fs,
      (list_files_in_s3 env st P (N : Int)).1 = .ok fs fs.length ∧
      fs.length ≤ N ∧
      (∀ f ∈ fs, f.key.startsWith P = true) ∧
      ((∀ e ∈ st, e.1.startsWith P = false) → fs = []) := by
  refine ⟨(listObjectsV2 st P (N : Int)).map
    (fun e => FileSummary.mk e.1 e.2.content.length e.2.lastModified),
    ?_, ?_, ?_, ?_⟩
  · simp [list_files_in_s3, hb]
  · simp only [List.length_map, listObjectsV2, List.length_take,
      Int.toNat_natCast]
    omega
  · intro f hf
    simp only [List.mem_map] at hf
    obtain ⟨e, he, rfl⟩ := hf
    have he2 : e ∈ st.filter (fun x => x.1.startsWith P) :=
      List.take_subset _ _ he
    exact (List.mem_filter.mp he2).2
  · intro hnone
    have hfil : st.filter (fun x => x.1.startsWith P) = [] := by
      apply List.filter_eq_nil_iff.mpr
      intro a ha
      simp [hnone a ha]
    simp [listObjectsV2, hfil]

theorem listPrefixBound_w :
    envA.bucket ≠ "" ∧
    (∃ fs,
      (list_files_in_s3 envA stW "ab" ((5 : Nat) : Int)).1 =
        .ok fs fs.length ∧
      fs.length ≤ 5 ∧
      (∀ f ∈ fs, f.key.startsWith "ab" = true) ∧
      ((∀ e ∈ stW, e.1.startsWith "ab" = false) → fs = [])) :=
  ⟨by decide, listPrefixBound envA stW "ab" 5 (by decide)⟩

/-- C8: Delete of any key `K` — in particular one absent from the store —
returns a success result, and the endpoint returns 200 with the key echoed
back. -/
theorem deleteAbsentKeySucceeds (env : Env) (st : S3Store) (K : String)
    (hb : env.bucket ≠ "") (habs : ∀ e ∈ st, e.1 ≠ K) :
    (delete_file env st K).1 =
      .json 200 (.obj [("success", .bool true),
        ("message", .str "File deleted successfully"),
        ("file_key", .str K)]) ∧
    (delete_file_from_s3 env st K).1 = .ok K := by
  constructor <;> simp [delete_file, delete_file_from_s3, hb]

theorem deleteAbsentKeySucceeds_w :
    envA.bucket ≠ "" ∧ (∀ e ∈ ([] : S3Store), e.1 ≠ "ghost.txt") ∧
    ((delete_file envA [] "ghost.txt").1 =
      .json 200 (.obj [("success", .bool true),
        ("message", .str "File deleted successfully"),
        ("file_key", .str "ghost.txt")]) ∧
    (delete_file_from_s3 envA [] "ghost.txt").1 = .ok "ghost.txt") :=
  ⟨by decide, by simp,
    deleteAbsentKeySucceeds envA [] "ghost.txt" (by decide) (by simp)⟩

end S3App
